import Mathlib

/-!
Verification development for the cashier cart reservation and
inventory-availability engine of the helloibe-warung repository.

The definitions below are a shallow embedding of the TypeScript source:
the carts library (saveCart, updateCart, deleteCart over the persistent
cart store) and the cashier page (reservedQuantities,
totalInventoryQuantity, productInventoryQuantity, addToCart,
updateQuantity, removeFromCart, handleNewCart, handleSaveCart,
handleConfirmSaveCart, handleLoadCart, handleDeleteCart,
handleConfirmCheckout).  JavaScript numbers are modelled as Int,
nullable values as Option, and the expiry date of a stock record by the
integer day difference that getExpiryStatus computes from it.  The
persistent localStorage slot is the store field of State; the React
state variables cart, savedCarts, currentCartId and cartName are the
remaining fields.  External network calls (the order submission) are
modelled by a boolean outcome parameter.
-/

namespace Warung

/-- Expiry classification of a stock record, as in getExpiryStatus. -/
inductive ExpiryStatus where
  | valid
  | nearExpiry
  | expired
  deriving DecidableEq

/-- A cart line, mirroring the CartItem interface of the carts library. -/
structure CartItem where
  id : String
  sku : String
  name : String
  price : Int
  quantity : Int
  deriving DecidableEq

/-- A parked cart, mirroring the SavedCart interface of the carts library. -/
structure SavedCart where
  id : String
  name : String
  items : List CartItem
  total : Int
  createdAt : String
  updatedAt : String
  deriving DecidableEq

/-- One inventory record of the paged stock feed.  The expiry date is
represented by the day difference that getExpiryStatus derives from it. -/
structure InventoryItem where
  productId : String
  quantity : Int
  expiryDiffDays : Int
  deriving DecidableEq

/-- A product as passed to addToCart by the cashier page. -/
structure Product where
  id : String
  name : String
  sku : Option String
  sellingPrice : Int
  deriving DecidableEq

/-- The cashier page state: the live cart, the in-memory list of saved
carts, the id and name of the currently loaded saved cart, the
persistent cart store (localStorage) and the loaded inventory records. -/
structure State where
  cart : List CartItem
  savedCarts : List SavedCart
  currentCartId : Option String
  cartName : String
  store : List SavedCart
  inventory : List InventoryItem
  deriving DecidableEq

/-- getExpiryStatus of the cashier page, on the day difference between
the expiry date and today: negative means expired, at most seven days
means near expiry, otherwise valid. -/
def getExpiryStatus (diffDays : Int) : ExpiryStatus :=
  if diffDays < 0 then .expired
  else if diffDays ≤ 7 then .nearExpiry
  else .valid

/-- The filter of totalInventoryQuantity: a record contributes only if
its quantity is positive and its status is valid or near expiry. -/
def sellableRecord (it : InventoryItem) : Bool :=
  decide (0 < it.quantity) &&
    (getExpiryStatus it.expiryDiffDays == ExpiryStatus.valid ||
      getExpiryStatus it.expiryDiffDays == ExpiryStatus.nearExpiry)

/-- Total quantity the given cart lines hold of product p; this is the
value the reservation map of the cashier page accumulates per key. -/
def itemsQty (items : List CartItem) (p : String) : Int :=
  ((items.filter (fun it => it.id == p)).map (fun it => it.quantity)).sum

/-- The skip test of reservedQuantities: a saved cart is counted unless
currentCartId is truthy and equals its id (JavaScript truthiness makes
an empty-string id never match). -/
def notCurrentCart (cid : Option String) (sc : SavedCart) : Bool :=
  match cid with
  | none => true
  | some c => !(!(c == "") && sc.id == c)

/-- The lines of all saved carts other than the currently loaded one. -/
def otherCartItems (s : State) : List CartItem :=
  ((s.savedCarts.filter (notCurrentCart s.currentCartId)).map SavedCart.items).flatten

/-- reservedQuantities of the cashier page at product p: the sum over
all saved carts except the current one, plus the live cart. -/
def reservedQuantities (s : State) (p : String) : Int :=
  itemsQty (otherCartItems s) p + itemsQty s.cart p

/-- Whether the reservation map of the cashier page has an entry for p:
some processed line (of any quantity) carries that product id. -/
def hasReservedEntry (s : State) (p : String) : Bool :=
  (otherCartItems s ++ s.cart).any (fun it => it.id == p)

/-- totalInventoryQuantity of the cashier page at product p: the sum of
the quantities of the sellable inventory records for p. -/
def totalInventoryQuantity (s : State) (p : String) : Int :=
  (((s.inventory.filter sellableRecord).filter
      (fun it => it.productId == p)).map (fun it => it.quantity)).sum

/-- productInventoryQuantity of the cashier page at product p.  The
reservation subtraction with the floor at zero is applied exactly for
the keys of the reservation map; other products keep their total. -/
def productInventoryQuantity (s : State) (p : String) : Int :=
  if hasReservedEntry s p then
    max 0 (totalInventoryQuantity s p - reservedQuantities s p)
  else
    totalInventoryQuantity s p

/-- Modelled from the spec: the reservation accounting formula of the
data model section, for every product P the available quantity is
max(0, totalSellableStock(P) minus the reservations of all saved carts
other than the current one minus the live cart reservation).  Defined
from the spec words, to be compared with productInventoryQuantity. -/
def specAvailable (s : State) (p : String) : Int :=
  max 0 (totalInventoryQuantity s p - (itemsQty (otherCartItems s) p + itemsQty s.cart p))

/-- The data of the insufficient-inventory message of the cashier page. -/
structure InsufficientStock where
  available : Int
  requested : Int
  deriving DecidableEq

/-- addToCart of the cashier page.  Returns the new state and the
insufficient-inventory rejection, if any. -/
def addToCart (s : State) (product : Product) : State × Option InsufficientStock :=
  let availableQuantity := productInventoryQuantity s product.id
  match s.cart.find? (fun it => it.id == product.id) with
  | some existingItem =>
    let newQuantity := existingItem.quantity + 1
    if availableQuantity < newQuantity then
      (s, some ⟨availableQuantity, newQuantity⟩)
    else
      ({s with cart := s.cart.map (fun it =>
          if it.id == product.id then {it with quantity := newQuantity} else it)}, none)
  | none =>
    if availableQuantity < 1 then
      (s, some ⟨availableQuantity, 1⟩)
    else
      ({s with cart := s.cart ++
          [⟨product.id, product.sku.getD "", product.name, product.sellingPrice, 1⟩]}, none)

/-- The per-line transformation of updateQuantity: a matching line is
dropped if the new quantity is not positive, kept unchanged if the
increase exceeds availability, and otherwise set to the new quantity. -/
def adjustLine (availableQuantity : Int) (id : String) (delta : Int)
    (it : CartItem) : Option CartItem :=
  if it.id == id then
    let newQuantity := it.quantity + delta
    if newQuantity ≤ 0 then none
    else if 0 < delta ∧ availableQuantity < newQuantity then some it
    else some {it with quantity := newQuantity}
  else some it

/-- Whether a line triggers the insufficient-inventory alert branch of
updateQuantity. -/
def adjustRejected (availableQuantity : Int) (id : String) (delta : Int)
    (it : CartItem) : Bool :=
  it.id == id && decide (0 < it.quantity + delta) && decide (0 < delta) &&
    decide (availableQuantity < it.quantity + delta)

/-- updateQuantity of the cashier page.  Returns the new state and
whether the insufficient-inventory alert fired. -/
def updateQuantity (s : State) (id : String) (delta : Int) : State × Bool :=
  let availableQuantity := productInventoryQuantity s id
  ({s with cart := s.cart.filterMap (adjustLine availableQuantity id delta)},
   s.cart.any (adjustRejected availableQuantity id delta))

/-- removeFromCart of the cashier page. -/
def removeFromCart (s : State) (id : String) : State :=
  {s with cart := s.cart.filter (fun it => !(it.id == id))}

/-- handleNewCart of the cashier page (the accepted path of the confirm
dialog); the clear-cart button performs the same reset. -/
def handleNewCart (s : State) : State :=
  {s with cart := [], currentCartId := none, cartName := ""}

/-- The cart total, as recomputed by the carts library and the page. -/
def cartTotal (items : List CartItem) : Int :=
  items.foldl (fun sum it => sum + it.price * it.quantity) 0

/-- JavaScript name-or-fallback: an absent or empty name string falls
back to the given value. -/
def nameOr (name : Option String) (fallback : String) : String :=
  match name with
  | some n => if n == "" then fallback else n
  | none => fallback

/-- saveCart of the carts library: builds the new saved cart with the
recomputed total, the given or generated name and identical timestamps,
and prepends it to the store.  The fresh id and the date string of the
generated default name are parameters of the model. -/
def saveCart (store : List SavedCart) (cart : List CartItem) (name : Option String)
    (cartId now dateStr : String) : List SavedCart × SavedCart :=
  let total := cartTotal cart
  let cartName := nameOr name ("Cart " ++ dateStr)
  let savedCart : SavedCart := ⟨cartId, cartName, cart, total, now, now⟩
  (savedCart :: store, savedCart)

/-- updateCart of the carts library: replaces the first stored cart with
the given id by a copy with the new items, the recomputed total, the
refreshed update time and the optionally replaced name; returns the
store contents and the updated cart, or none when the id is absent (in
that case the store is not rewritten). -/
def updateCart (carts : List SavedCart) (cartId : String) (cart : List CartItem)
    (name : Option String) (now : String) : List SavedCart × Option SavedCart :=
  match carts with
  | [] => ([], none)
  | c :: rest =>
    if c.id == cartId then
      let updated : SavedCart :=
        {c with items := cart, total := cartTotal cart, updatedAt := now,
                name := nameOr name c.name}
      (updated :: rest, some updated)
    else
      let r := updateCart rest cartId cart name now
      (c :: r.1, r.2)

/-- deleteCart of the carts library: drops every stored cart with the
given id. -/
def deleteCart (store : List SavedCart) (cartId : String) : List SavedCart :=
  store.filter (fun c => !(c.id == cartId))

/-- Outcome of handleSaveCart. -/
inductive SaveOutcome where
  | emptyCart
  | updated
  | modalOpened
  | silentNoop
  deriving DecidableEq

/-- handleSaveCart of the cashier page: rejects an empty cart; with a
truthy currentCartId it updates the stored cart (a missing id makes the
call a silent no-op); otherwise it opens the save modal. -/
def handleSaveCart (s : State) (now : String) : State × SaveOutcome :=
  if s.cart = [] then (s, .emptyCart)
  else
    match s.currentCartId with
    | some c =>
      if c == "" then (s, .modalOpened)
      else
        let nameArg := if s.cartName = "" then none else some s.cartName
        let r := updateCart s.store c s.cart nameArg now
        match r.2 with
        | some _ => ({s with store := r.1, savedCarts := r.1}, .updated)
        | none => (s, .silentNoop)
    | none => (s, .modalOpened)

/-- handleConfirmSaveCart of the cashier page: saves the live cart as a
new saved cart and makes it current. -/
def handleConfirmSaveCart (s : State) (cartId now dateStr : String) : State :=
  if s.cart = [] then s
  else
    let nameArg := if s.cartName = "" then none else some s.cartName
    let r := saveCart s.store s.cart nameArg cartId now dateStr
    {s with store := r.1, savedCarts := r.1, currentCartId := some r.2.id, cartName := ""}

/-- handleLoadCart of the cashier page (the accepted path of the confirm
dialog): the live cart becomes the saved cart lines and the saved cart
becomes current. -/
def handleLoadCart (s : State) (savedCart : SavedCart) : State :=
  {s with cart := savedCart.items, currentCartId := some savedCart.id,
          cartName := savedCart.name}

/-- The strict equality test of handleDeleteCart between the nullable
currentCartId and the deleted id. -/
def isCurrentId (cid : Option String) (cartId : String) : Bool :=
  match cid with
  | some c => c == cartId
  | none => false

/-- handleDeleteCart of the cashier page (the accepted path of the
confirm dialog): deletes the stored cart, reloads the saved-cart list,
and clears currentCartId and cartName when the deleted cart was the
current one.  The live cart is not touched. -/
def handleDeleteCart (s : State) (cartId : String) : State :=
  let store := deleteCart s.store cartId
  let s1 := {s with store := store, savedCarts := store}
  if isCurrentId s.currentCartId cartId then
    {s1 with currentCartId := none, cartName := ""}
  else s1

/-- Outcome of handleConfirmCheckout. -/
inductive CheckoutResult where
  | emptyCart
  | success
  | checkoutFailed
  deriving DecidableEq

/-- handleConfirmCheckout of the cashier page, with the order submission
outcome as a parameter: an empty cart returns early; a failed submission
changes nothing; on success a truthy currentCartId has its saved cart
deleted and cleared, and the live cart is emptied. -/
def handleConfirmCheckout (s : State) (backendOk : Bool) : State × CheckoutResult :=
  if s.cart = [] then (s, .emptyCart)
  else if backendOk then
    match s.currentCartId with
    | some c =>
      if c == "" then ({s with cart := []}, .success)
      else
        let store := deleteCart s.store c
        ({s with store := store, savedCarts := store, currentCartId := none,
                 cartName := "", cart := []}, .success)
    | none => ({s with cart := []}, .success)
  else (s, .checkoutFailed)

/-- The empty initial state of the page: no cart, no saved carts, no
store contents, no inventory loaded yet. -/
def initState : State := ⟨[], [], none, "", [], []⟩

/-- One user-visible transition of the cashier page.  Loading a cart is
only possible for a member of the saved-cart list, as in the UI; the
stock constructor models a completed inventory fetch replacing the
loaded records. -/
inductive Step : State → State → Prop where
  | add (s : State) (product : Product) : Step s (addToCart s product).1
  | adjust (s : State) (id : String) (delta : Int) : Step s (updateQuantity s id delta).1
  | remove (s : State) (id : String) : Step s (removeFromCart s id)
  | newCart (s : State) : Step s (handleNewCart s)
  | load (s : State) (sc : SavedCart) (h : sc ∈ s.savedCarts) : Step s (handleLoadCart s sc)
  | save (s : State) (now : String) : Step s (handleSaveCart s now).1
  | confirmSave (s : State) (cartId now dateStr : String) :
      Step s (handleConfirmSaveCart s cartId now dateStr)
  | delete (s : State) (cartId : String) : Step s (handleDeleteCart s cartId)
  | checkout (s : State) (ok : Bool) : Step s (handleConfirmCheckout s ok).1
  | stock (s : State) (inv : List InventoryItem) : Step s {s with inventory := inv}

/-- States reachable by the page operations from the empty state. -/
def Reachable (s : State) : Prop := Relation.ReflTransGen Step initState s

/-- Every line of the given list has a positive quantity. -/
def PosQty (items : List CartItem) : Prop := ∀ it ∈ items, 1 ≤ it.quantity

/-- The quantity invariant over the whole state: the live cart and every
saved cart, in memory and in the store, hold only positive quantities. -/
def Inv (s : State) : Prop :=
  PosQty s.cart ∧ (∀ sc ∈ s.savedCarts, PosQty sc.items) ∧
    (∀ sc ∈ s.store, PosQty sc.items)

/-- The sellable-stock total is a sum of positive quantities, so it is
never negative. -/
lemma totalInventoryQuantity_nonneg (s : State) (p : String) :
    0 ≤ totalInventoryQuantity s p := by
  apply List.sum_nonneg
  intro x hx
  simp only [List.mem_map, List.mem_filter] at hx
  obtain ⟨it, ⟨⟨_, hsell⟩, _⟩, rfl⟩ := hx
  simp only [sellableRecord, Bool.and_eq_true, decide_eq_true_eq] at hsell
  omega

/-- Lines that never mention product p contribute no reserved quantity. -/
lemma itemsQty_eq_zero (l : List CartItem) (p : String)
    (h : ∀ it ∈ l, (it.id == p) = false) : itemsQty l p = 0 := by
  unfold itemsQty
  have : l.filter (fun it => it.id == p) = [] := by
    induction l with
    | nil => rfl
    | cons x xs ih =>
      rw [List.filter_cons, h x (List.mem_cons_self x xs)]
      exact ih fun it hit => h it (List.mem_cons_of_mem x hit)
  rw [this]
  rfl

/-- When the reservation map has no entry for p, the reserved total is
zero. -/
lemma reserved_eq_zero_of_no_entry (s : State) (p : String)
    (h : hasReservedEntry s p = false) : reservedQuantities s p = 0 := by
  unfold hasReservedEntry at h
  rw [List.any_append] at h
  rcases Bool.or_eq_false_iff.mp h with ⟨h1, h2⟩
  unfold reservedQuantities
  rw [itemsQty_eq_zero _ _ (fun it hit => by
        have := List.any_eq_false.mp h1 it hit; simpa using this),
      itemsQty_eq_zero _ _ (fun it hit => by
        have := List.any_eq_false.mp h2 it hit; simpa using this)]
  rfl

/-- Claim C1: for every product and every state, the computed available
quantity equals max(0, total sellable stock minus the reservations of
the saved carts other than the current one minus the live cart), is
never negative, and an expired stock record never contributes to the
sellable total, regardless of its quantity. -/
theorem availability_matches_reservation_formula (s : State) (p : String) :
    productInventoryQuantity s p = specAvailable s p ∧
    0 ≤ productInventoryQuantity s p ∧
    (∀ it : InventoryItem, getExpiryStatus it.expiryDiffDays = ExpiryStatus.expired →
      totalInventoryQuantity {s with inventory := it :: s.inventory} p =
        totalInventoryQuantity s p) := by
  refine ⟨?_, ?_, ?_⟩
  · unfold productInventoryQuantity specAvailable
    cases h : hasReservedEntry s p with
    | true => rfl
    | false =>
      simp only [Bool.false_eq_true, if_false]
      have h0 := reserved_eq_zero_of_no_entry s p h
      unfold reservedQuantities at h0
      rw [h0, sub_zero, max_eq_right (totalInventoryQuantity_nonneg s p)]
  · unfold productInventoryQuantity
    split
    · exact le_max_left 0 _
    · exact totalInventoryQuantity_nonneg s p
  · intro it h
    unfold totalInventoryQuantity
    have hs : sellableRecord it = false := by
      simp [sellableRecord, h]
    show ((((it :: s.inventory).filter sellableRecord).filter
        (fun x => x.productId == p)).map (fun x => x.quantity)).sum = _
    rw [List.filter_cons, hs]
    simp only [Bool.false_eq_true, if_false]

/-- Availability only depends on the lines of the non-current saved
carts, the live cart, and the inventory. -/
lemma available_congr (s1 s2 : State) (p : String)
    (hother : otherCartItems s1 = otherCartItems s2)
    (hcart : s1.cart = s2.cart) (hinv : s1.inventory = s2.inventory) :
    productInventoryQuantity s1 p = productInventoryQuantity s2 p := by
  unfold productInventoryQuantity hasReservedEntry reservedQuantities totalInventoryQuantity
  rw [hother, hcart, hinv]

/-- Claim C2: loading a saved cart never double-counts its reservation.
Immediately after handleLoadCart the availability of every product that
only this saved cart reserves equals the availability computed in the
state where that cart was never saved: the stale saved entry is dropped
from the subtraction and the live cart, now a copy of its lines,
carries the reservation instead. -/
theorem load_cart_no_double_count (s : State) (sc : SavedCart) (p : String)
    (hid : sc.id ≠ "") (hmem : sc ∈ s.savedCarts)
    (honly : ∀ c ∈ s.savedCarts, c.id ≠ sc.id → itemsQty c.items p = 0) :
    productInventoryQuantity (handleLoadCart s sc) p =
      productInventoryQuantity
        {s with savedCarts := s.savedCarts.filter (fun c => !(c.id == sc.id)),
                store := s.store.filter (fun c => !(c.id == sc.id)),
                cart := sc.items, currentCartId := none, cartName := ""} p := by
  apply available_congr
  · unfold otherCartItems handleLoadCart
    dsimp only
    have htrue : (s.savedCarts.filter (fun c => !(c.id == sc.id))).filter
        (notCurrentCart none) = s.savedCarts.filter (fun c => !(c.id == sc.id)) :=
      List.filter_eq_self.mpr fun a _ => rfl
    rw [htrue]
    have hne : (sc.id == "") = false := beq_eq_false_iff_ne.mpr hid
    have hcongr : s.savedCarts.filter (notCurrentCart (some sc.id)) =
        s.savedCarts.filter (fun c => !(c.id == sc.id)) := by
      apply List.filter_congr
      intro c _
      simp [notCurrentCart, hne]
    rw [hcongr]
  · rfl
  · rfl

/-- Concrete state for the C1 witness: one valid stock record. -/
def sC1 : State := ⟨[], [], none, "", [], [⟨"A", 4, 10⟩]⟩

/-- Witness for claim C1: an expired record with quantity 99 does not
change the sellable total of the concrete state. -/
theorem availability_formula_witness :
    totalInventoryQuantity {sC1 with inventory := ⟨"A", 99, -3⟩ :: sC1.inventory} "A" =
      totalInventoryQuantity sC1 "A" :=
  (availability_matches_reservation_formula sC1 "A").2.2 ⟨"A", 99, -3⟩ (by decide)

/-- Concrete saved cart for the C2 witness. -/
def scC2 : SavedCart := ⟨"c2", "Parked", [⟨"B", "B", "Banana", 3, 2⟩], 6, "t", "t"⟩

/-- Concrete state for the C2 witness: one saved cart, empty live cart. -/
def sC2 : State := ⟨[], [scC2], none, "", [scC2], [⟨"B", 8, 50⟩]⟩

/-- Witness for claim C2 at a concrete state and product. -/
theorem load_cart_no_double_count_witness :
    productInventoryQuantity (handleLoadCart sC2 scC2) "B" =
      productInventoryQuantity
        {sC2 with savedCarts := sC2.savedCarts.filter (fun c => !(c.id == scC2.id)),
                  store := sC2.store.filter (fun c => !(c.id == scC2.id)),
                  cart := scC2.items, currentCartId := none, cartName := ""} "B" :=
  load_cart_no_double_count sC2 scC2 "B" (by decide) (by decide) (by decide)

/-- The stock of scenario 1: exactly ten sellable units of product A. -/
def invC3 : List InventoryItem := [⟨"A", 10, 100⟩]

/-- The initial state of scenario 1: empty cart, no saved carts. -/
def stateC3 : State := ⟨[], [], none, "", [], invC3⟩

/-- The product being added in scenario 1. -/
def productA : Product := ⟨"A", "Apple", some "A", 5⟩

/-- The state after n successive addToCart calls for product A. -/
def iterAdd : Nat → State
  | 0 => stateC3
  | n + 1 => (addToCart (iterAdd n) productA).1

/-- Claim C3 is false on the code: from exactly ten sellable units and
an empty cart, the sixth addToCart call is already rejected, with
available 5 and requested 6, because the availability figure already
has the live cart quantity subtracted and is then compared against the
full proposed cart quantity; after ten calls the line holds quantity 5,
not 10. -/
theorem ten_adds_scenario_cex :
    (addToCart (iterAdd 5) productA).2 = some ⟨5, 6⟩ ∧
    (iterAdd 10).cart.map CartItem.quantity = [5] := by decide

/-- Claim C3 amended: from exactly ten sellable units, an empty live
cart and no saved carts, the first five addToCart calls succeed and the
cart line reaches quantity 5; every further call through the eleventh
fails with InsufficientStock reporting available 5 and requested 6 and
leaves the state unchanged. -/
theorem ten_adds_scenario_amended :
    (∀ k < 5, (addToCart (iterAdd k) productA).2 = none) ∧
    (iterAdd 5).cart.map CartItem.quantity = [5] ∧
    (∀ k < 6, (addToCart (iterAdd (5 + k)) productA).2 = some ⟨5, 6⟩ ∧
      iterAdd (5 + k + 1) = iterAdd (5 + k)) := by decide

/-- Witness for the amended C3: the third call succeeds and the eighth
call is rejected with available 5, requested 6. -/
theorem ten_adds_scenario_amended_witness :
    (addToCart (iterAdd 2) productA).2 = none ∧
    (addToCart (iterAdd 7) productA).2 = some ⟨5, 6⟩ :=
  ⟨ten_adds_scenario_amended.1 2 (by decide),
   (ten_adds_scenario_amended.2.2 2 (by decide)).1⟩

/-- Claim C5: a successful checkout while a saved cart with a real id is
current removes every entry with that id from the saved-cart list and
the store, empties the live cart and clears the current cart id. -/
theorem checkout_releases_current_cart (s : State) (x : String)
    (hx : x ≠ "") (hcur : s.currentCartId = some x) (hne : s.cart ≠ []) :
    (handleConfirmCheckout s true).2 = CheckoutResult.success ∧
    (∀ c ∈ (handleConfirmCheckout s true).1.savedCarts, c.id ≠ x) ∧
    (∀ c ∈ (handleConfirmCheckout s true).1.store, c.id ≠ x) ∧
    (handleConfirmCheckout s true).1.cart = [] ∧
    (handleConfirmCheckout s true).1.currentCartId = none := by
  have hxe : (x == "") = false := beq_eq_false_iff_ne.mpr hx
  refine ⟨?_, ?_, ?_, ?_, ?_⟩
  · simp [handleConfirmCheckout, hne, hcur, hxe]
  · intro c hc
    simp only [handleConfirmCheckout, hne, hcur, hxe, if_neg, if_false,
      Bool.false_eq_true, deleteCart, List.mem_filter] at hc
    have hcx : (c.id == x) = false := by
      simp [hne, hxe] at hc
      simpa using hc.2
    exact beq_eq_false_iff_ne.mp hcx
  · intro c hc
    have hcx : (c.id == x) = false := by
      simp [handleConfirmCheckout, hne, hcur, hxe, deleteCart, List.mem_filter] at hc
      simpa using hc.2
    exact beq_eq_false_iff_ne.mp hcx
  · simp [handleConfirmCheckout, hne, hcur, hxe]
  · simp [handleConfirmCheckout, hne, hcur, hxe]

/-- A concrete cart line shared by several witnesses. -/
def itemW6 : CartItem := ⟨"A", "A", "Apple", 5, 2⟩

/-- A concrete saved cart shared by several witnesses. -/
def scW6 : SavedCart := ⟨"c1", "Lunch", [itemW6], 10, "t", "t"⟩

/-- A concrete state whose live cart is the loaded saved cart c1. -/
def sW6 : State := ⟨[itemW6], [scW6], some "c1", "Lunch", [scW6], []⟩

/-- Witness for claim C5 at a concrete state. -/
theorem checkout_releases_current_cart_witness :
    (handleConfirmCheckout sW6 true).2 = CheckoutResult.success ∧
    (handleConfirmCheckout sW6 true).1.cart = [] ∧
    (handleConfirmCheckout sW6 true).1.currentCartId = none :=
  ⟨(checkout_releases_current_cart sW6 "c1" (by decide) rfl (by decide)).1,
   (checkout_releases_current_cart sW6 "c1" (by decide) rfl (by decide)).2.2.2.1,
   (checkout_releases_current_cart sW6 "c1" (by decide) rfl (by decide)).2.2.2.2⟩

/-- Claim C6 is false on the code: deleting the currently loaded saved
cart removes it from the store and clears the current id, but the live
cart is not emptied; at the concrete state it still holds its line. -/
theorem delete_current_cart_cex :
    sW6.currentCartId = some "c1" ∧ isCurrentId sW6.currentCartId "c1" = true ∧
    (handleDeleteCart sW6 "c1").cart ≠ [] := by decide

/-- Claim C6 amended: when deleteCart runs with the id of the current
cart, the saved cart is removed from the saved-cart list and the store
and currentCartId is cleared to null, but the live cart is left
unchanged rather than emptied. -/
theorem delete_current_cart_amended (s : State) (cartId : String)
    (h : isCurrentId s.currentCartId cartId = true) :
    (∀ c ∈ (handleDeleteCart s cartId).savedCarts, c.id ≠ cartId) ∧
    (∀ c ∈ (handleDeleteCart s cartId).store, c.id ≠ cartId) ∧
    (handleDeleteCart s cartId).currentCartId = none ∧
    (handleDeleteCart s cartId).cart = s.cart := by
  unfold handleDeleteCart
  rw [if_pos h]
  refine ⟨?_, ?_, rfl, rfl⟩
  · intro c hc
    have hcx : (c.id == cartId) = false := by
      simp only [deleteCart, List.mem_filter] at hc
      simpa using hc.2
    exact beq_eq_false_iff_ne.mp hcx
  · intro c hc
    have hcx : (c.id == cartId) = false := by
      simp only [deleteCart, List.mem_filter] at hc
      simpa using hc.2
    exact beq_eq_false_iff_ne.mp hcx

/-- Witness for the amended C6 at a concrete state. -/
theorem delete_current_cart_amended_witness :
    (handleDeleteCart sW6 "c1").currentCartId = none ∧
    (handleDeleteCart sW6 "c1").cart = sW6.cart :=
  ⟨(delete_current_cart_amended sW6 "c1" (by decide)).2.2.1,
   (delete_current_cart_amended sW6 "c1" (by decide)).2.2.2⟩

/-- Claim C7: the total stored by saveCart is the recomputation from the
stored lines, the new saved cart is in the resulting store, and the
entry updateCart stores likewise carries the total recomputed from the
lines being saved, never a carried-over previous value. -/
theorem stored_total_equals_recomputation (store : List SavedCart)
    (cart : List CartItem) (name : Option String) (cartId now dateStr cid : String) :
    ((saveCart store cart name cartId now dateStr).2.total =
        cartTotal (saveCart store cart name cartId now dateStr).2.items) ∧
    ((saveCart store cart name cartId now dateStr).2 ∈
        (saveCart store cart name cartId now dateStr).1) ∧
    (∀ sc : SavedCart, (updateCart store cid cart name now).2 = some sc →
      sc.total = cartTotal sc.items ∧ sc ∈ (updateCart store cid cart name now).1) := by
  refine ⟨rfl, List.mem_cons_self _ _, ?_⟩
  induction store with
  | nil =>
    intro sc h
    simp [updateCart] at h
  | cons c rest ih =>
    intro sc h
    by_cases hc : (c.id == cid) = true
    · simp only [updateCart, hc, if_true] at h ⊢
      cases h
      exact ⟨rfl, List.mem_cons_self _ _⟩
    · simp only [updateCart, hc, Bool.false_eq_true, if_false] at h ⊢
      obtain ⟨ht, hm⟩ := ih sc h
      exact ⟨ht, List.mem_cons_of_mem c hm⟩

/-- Witness for claim C7 at a concrete update. -/
theorem stored_total_equals_recomputation_witness :
    scW6.total = 10 ∧
    (updateCart [scW6] "c1" [⟨"A", "A", "Apple", 5, 3⟩] none "t2").2 =
      some ⟨"c1", "Lunch", [⟨"A", "A", "Apple", 5, 3⟩], 15, "t", "t2"⟩ ∧
    (15 : Int) = cartTotal [⟨"A", "A", "Apple", 5, 3⟩] :=
  ⟨by decide, by decide,
   by
    have h := (stored_total_equals_recomputation [scW6] [⟨"A", "A", "Apple", 5, 3⟩]
      none "x" "t2" "d" "c1").2.2
      ⟨"c1", "Lunch", [⟨"A", "A", "Apple", 5, 3⟩], 15, "t", "t2"⟩ (by decide)
    exact h.1⟩

/-- updateCart on an id absent from the store returns none and the store
contents it reports are exactly the old ones. -/
lemma updateCart_missing (store : List SavedCart) (cartId : String)
    (cart : List CartItem) (name : Option String) (now : String)
    (h : ∀ c ∈ store, c.id ≠ cartId) :
    updateCart store cartId cart name now = (store, none) := by
  induction store with
  | nil => rfl
  | cons c rest ih =>
    have hc : (c.id == cartId) = false :=
      beq_eq_false_iff_ne.mpr (h c (List.mem_cons_self c rest))
    have hr := ih fun d hd => h d (List.mem_cons_of_mem c hd)
    simp only [updateCart, hc, Bool.false_eq_true, if_false, hr]

/-- Claim C9: updateCart with an id that no stored cart carries returns
null and reports the stored carts unchanged, and the save handler
invoked while currentCartId refers to a since-deleted cart is a silent
no-op: the state is returned untouched with no error outcome. -/
theorem stale_update_is_silent_noop (store : List SavedCart) (cartId : String)
    (cart : List CartItem) (name : Option String) (now : String)
    (s : State) (x now2 : String)
    (hmiss : ∀ c ∈ store, c.id ≠ cartId)
    (hx : x ≠ "") (hcur : s.currentCartId = some x)
    (hmiss2 : ∀ c ∈ s.store, c.id ≠ x) (hne : s.cart ≠ []) :
    updateCart store cartId cart name now = (store, none) ∧
    handleSaveCart s now2 = (s, SaveOutcome.silentNoop) := by
  refine ⟨updateCart_missing store cartId cart name now hmiss, ?_⟩
  have hxe : (x == "") = false := beq_eq_false_iff_ne.mpr hx
  have hm := updateCart_missing s.store x s.cart
    (if s.cartName = "" then none else some s.cartName) now2 hmiss2
  unfold handleSaveCart
  rw [if_neg hne, hcur]
  dsimp only
  simp only [hxe, Bool.false_eq_true, if_false, hm]

/-- Witness for claim C9: a state whose current id c9 is in no stored
cart; the save handler leaves it untouched. -/
def sC9 : State := ⟨[itemW6], [scW6], some "c9", "Gone", [scW6], []⟩

/-- Witness for claim C9 at concrete inputs. -/
theorem stale_update_is_silent_noop_witness :
    updateCart [scW6] "c9" [itemW6] none "t3" = ([scW6], none) ∧
    handleSaveCart sC9 "t3" = (sC9, SaveOutcome.silentNoop) :=
  stale_update_is_silent_noop [scW6] "c9" [itemW6] none "t3" sC9 "c9" "t3"
    (by decide) (by decide) rfl (by decide) (by decide)

/-- The generated default cart name always starts with the word Cart and
so is never the empty string. -/
lemma default_name_ne_empty (dateStr : String) : ("Cart " ++ dateStr) ≠ "" := by
  intro h
  have hlen : ("Cart " ++ dateStr).length = 0 := by rw [h]; rfl
  rw [String.length_append] at hlen
  have h5 : ("Cart ").length = 5 := rfl
  omega

/-- The name-or-fallback helper never returns the empty string when the
fallback is non-empty, and keeps the fallback on an absent or empty
name. -/
lemma nameOr_ne_empty (name : Option String) (fallback : String)
    (hf : fallback ≠ "") : nameOr name fallback ≠ "" := by
  cases name with
  | none => exact hf
  | some n =>
    by_cases hn : (n == "") = true
    · simp [nameOr, hn, hf]
    · simp only [nameOr, hn, Bool.false_eq_true, if_false]
      · simp only [Bool.not_eq_true] at hn
        exact beq_eq_false_iff_ne.mp (by simpa using hn)

/-- Claim C10: a stored cart name is only ever replaced by a non-empty
string.  saveCart always stores a non-empty name (the given one or the
generated default); updateCart with an absent or empty name argument
preserves every previously stored name; and neither operation turns a
store whose names are all non-empty into one containing an empty name,
whatever the name argument. -/
theorem names_stay_nonempty (store : List SavedCart) (cart : List CartItem)
    (cartId now dateStr cid : String) (name : Option String)
    (hname : name = none ∨ name = some "")
    (hstore : ∀ c ∈ store, c.name ≠ "") :
    (∀ n : Option String, (saveCart store cart n cartId now dateStr).2.name ≠ "") ∧
    ((updateCart store cid cart name now).1.map SavedCart.name =
        store.map SavedCart.name) ∧
    (∀ n : Option String, ∀ c ∈ (updateCart store cid cart n now).1, c.name ≠ "") ∧
    (∀ n : Option String, ∀ c ∈ (saveCart store cart n cartId now dateStr).1, c.name ≠ "") := by
  refine ⟨?_, ?_, ?_, ?_⟩
  · intro n
    exact nameOr_ne_empty n _ (default_name_ne_empty dateStr)
  · induction store with
    | nil => rfl
    | cons c rest ih =>
      by_cases hc : (c.id == cid) = true
      · simp only [updateCart, hc, if_true, List.map_cons, List.map]
        have hkeep : nameOr name c.name = c.name := by
          rcases hname with rfl | rfl
          · rfl
          · rfl
        rw [hkeep]
      · have ih2 := ih fun d hd => hstore d (List.mem_cons_of_mem c hd)
        simp only [updateCart, hc, Bool.false_eq_true, if_false, List.map_cons, ih2]
  · intro n
    induction store with
    | nil => intro c hc; simp [updateCart] at hc
    | cons c rest ih =>
      intro d hd
      by_cases hc : (c.id == cid) = true
      · simp only [updateCart, hc, if_true] at hd
        rcases List.mem_cons.mp hd with rfl | hmem
        · exact nameOr_ne_empty n c.name (hstore c (List.mem_cons_self c rest))
        · exact hstore d (List.mem_cons_of_mem c hmem)
      · simp only [updateCart, hc, Bool.false_eq_true, if_false] at hd
        rcases List.mem_cons.mp hd with rfl | hmem
        · exact hstore d (List.mem_cons_self d rest)
        · exact ih (fun e he => hstore e (List.mem_cons_of_mem c he)) d hmem
  · intro n c hc
    rcases List.mem_cons.mp hc with rfl | hmem
    · exact nameOr_ne_empty n _ (default_name_ne_empty dateStr)
    · exact hstore c hmem

/-- A list is unchanged by filterMap when every element maps to itself. -/
lemma filterMap_id_of_eq_some (l : List CartItem) (f : CartItem → Option CartItem)
    (h : ∀ x ∈ l, f x = some x) : l.filterMap f = l := by
  induction l with
  | nil => rfl
  | cons x xs ih =>
    rw [List.filterMap_cons, h x (List.mem_cons_self x xs),
      ih fun y hy => h y (List.mem_cons_of_mem x hy)]

/-- Claim C4: every rejected operation leaves the live cart, the saved
carts and the current cart id exactly as before the call.  A rejected
addToCart returns the old state; a rejected updateQuantity returns the
old state whenever the cart has at most one line per product id (as
every cart built by the page does); an empty cart makes handleSaveCart
and handleConfirmCheckout return the untouched state with the
empty-cart outcome; and a failed order submission returns the untouched
state with the checkout-failed outcome. -/
theorem reject_without_mutation (s : State) (product : Product) (id : String)
    (delta : Int) (now : String) (ok : Bool) :
    ((addToCart s product).2 ≠ none → (addToCart s product).1 = s) ∧
    ((∀ a ∈ s.cart, ∀ b ∈ s.cart, a.id = b.id → a = b) →
      (updateQuantity s id delta).2 = true → (updateQuantity s id delta).1 = s) ∧
    (s.cart = [] → handleSaveCart s now = (s, SaveOutcome.emptyCart)) ∧
    (s.cart = [] → handleConfirmCheckout s ok = (s, CheckoutResult.emptyCart)) ∧
    (s.cart ≠ [] → handleConfirmCheckout s false = (s, CheckoutResult.checkoutFailed)) := by
  refine ⟨?_, ?_, ?_, ?_, ?_⟩
  · intro h
    unfold addToCart at h ⊢
    cases hf : s.cart.find? (fun it => it.id == product.id) with
    | none =>
      simp only [hf] at h ⊢
      split at h
      · rename_i hc
        rw [if_pos hc]
      · exact absurd rfl h
    | some ex =>
      simp only [hf] at h ⊢
      split at h
      · rename_i hc
        rw [if_pos hc]
      · exact absurd rfl h
  · intro hinj h
    unfold updateQuantity at h ⊢
    dsimp only at h ⊢
    set a := productInventoryQuantity s id with ha
    have hex : ∃ it0 ∈ s.cart, adjustRejected a id delta it0 = true := by
      simpa using List.any_eq_true.mp h
    obtain ⟨it0, hmem0, hrej⟩ := hex
    simp only [adjustRejected, Bool.and_eq_true, decide_eq_true_eq] at hrej
    obtain ⟨⟨⟨hid0, hpos0⟩, hdelta0⟩, havail0⟩ := hrej
    have hall : ∀ x ∈ s.cart, adjustLine a id delta x = some x := by
      intro x hx
      unfold adjustLine
      by_cases hxid : (x.id == id) = true
      · have hx0 : x = it0 := by
          apply hinj x hx it0 hmem0
          rw [beq_iff_eq.mp hxid, beq_iff_eq.mp hid0]
        subst hx0
        rw [if_pos hxid, if_neg (by omega), if_pos ⟨hdelta0, havail0⟩]
      · rw [if_neg hxid]
    rw [filterMap_id_of_eq_some s.cart _ hall]
  · intro h
    unfold handleSaveCart
    rw [if_pos h]
  · intro h
    unfold handleConfirmCheckout
    rw [if_pos h]
  · intro h
    unfold handleConfirmCheckout
    rw [if_neg h]
    rfl

/-- A state at which both rejection paths fire: one unit in stock, the
live cart already holds one unit. -/
def sC4 : State := ⟨[⟨"A", "A", "Apple", 5, 1⟩], [], none, "", [], [⟨"A", 1, 100⟩]⟩

/-- Witness for claim C4: at the concrete state, adding a second unit is
rejected without mutation, the plus stepper is rejected without
mutation, and a failed checkout changes nothing. -/
theorem reject_without_mutation_witness :
    ((addToCart sC4 productA).2 ≠ none ∧ (addToCart sC4 productA).1 = sC4) ∧
    ((updateQuantity sC4 "A" 1).2 = true ∧ (updateQuantity sC4 "A" 1).1 = sC4) ∧
    handleConfirmCheckout sC4 false = (sC4, CheckoutResult.checkoutFailed) :=
  ⟨⟨by decide, (reject_without_mutation sC4 productA "A" 1 "t" false).1 (by decide)⟩,
   ⟨by decide, (reject_without_mutation sC4 productA "A" 1 "t" false).2.1
      (by decide) (by decide)⟩,
   (reject_without_mutation sC4 productA "A" 1 "t" false).2.2.2.2 (by decide)⟩

/-- The empty list trivially satisfies the quantity bound. -/
lemma posQty_nil : PosQty [] := fun it hit => absurd hit (List.not_mem_nil it)

/-- addToCart keeps every cart line at quantity at least one. -/
lemma posqty_addToCart (s : State) (product : Product) (h : PosQty s.cart) :
    PosQty (addToCart s product).1.cart := by
  unfold addToCart
  cases hf : s.cart.find? (fun it => it.id == product.id) with
  | none =>
    dsimp only
    split
    · exact h
    · intro it hit
      rcases List.mem_append.mp hit with hmem | hmem
      · exact h it hmem
      · rw [List.mem_singleton.mp hmem]
  | some ex =>
    dsimp only
    split
    · exact h
    · intro it hit
      obtain ⟨x, hx, rfl⟩ := List.mem_map.mp hit
      have hexmem := List.mem_of_find?_eq_some hf
      have hex := h ex hexmem
      by_cases hxid : (x.id == product.id) = true
      · simp only [hxid, if_true]
        omega
      · simp only [hxid, Bool.false_eq_true, if_false]
        exact h x hx

/-- addToCart never changes the saved carts or the store. -/
lemma addToCart_frame (s : State) (product : Product) :
    (addToCart s product).1.savedCarts = s.savedCarts ∧
    (addToCart s product).1.store = s.store := by
  unfold addToCart
  cases hf : s.cart.find? (fun it => it.id == product.id) <;> dsimp only <;> split <;>
    exact ⟨rfl, rfl⟩

/-- updateQuantity keeps every surviving cart line at quantity at least
one: a line driven to zero or below is removed. -/
lemma posqty_updateQuantity (s : State) (id : String) (delta : Int)
    (h : PosQty s.cart) : PosQty (updateQuantity s id delta).1.cart := by
  unfold updateQuantity
  dsimp only
  intro it hit
  obtain ⟨x, hx, hfx⟩ := List.mem_filterMap.mp hit
  unfold adjustLine at hfx
  by_cases hxid : (x.id == id) = true
  · rw [if_pos hxid] at hfx
    dsimp only at hfx
    by_cases h0 : x.quantity + delta ≤ 0
    · rw [if_pos h0] at hfx
      cases hfx
    · rw [if_neg h0] at hfx
      by_cases h1 : 0 < delta ∧ productInventoryQuantity s id < x.quantity + delta
      · rw [if_pos h1] at hfx
        injection hfx with h2
        subst h2
        exact h x hx
      · rw [if_neg h1] at hfx
        injection hfx with h2
        subst h2
        dsimp only
        omega
  · rw [if_neg hxid] at hfx
    injection hfx with h2
    subst h2
    exact h x hx

/-- The store reported by updateCart keeps the quantity bound when the
old store and the new lines satisfy it. -/
lemma updateCart_posqty (store : List SavedCart) (cid : String)
    (cart : List CartItem) (name : Option String) (now : String)
    (hs : ∀ c ∈ store, PosQty c.items) (hc : PosQty cart) :
    ∀ c ∈ (updateCart store cid cart name now).1, PosQty c.items := by
  induction store with
  | nil => intro c hmem; simp [updateCart] at hmem
  | cons d rest ih =>
    intro c hmem
    by_cases hd : (d.id == cid) = true
    · simp only [updateCart, hd, if_true] at hmem
      rcases List.mem_cons.mp hmem with rfl | hmem2
      · exact hc
      · exact hs c (List.mem_cons_of_mem d hmem2)
    · simp only [updateCart, hd, Bool.false_eq_true, if_false] at hmem
      rcases List.mem_cons.mp hmem with rfl | hmem2
      · exact hs c (List.mem_cons_self _ _)
      · exact ih (fun e he => hs e (List.mem_cons_of_mem d he)) c hmem2

/-- The store produced by saveCart keeps the quantity bound when the old
store and the saved lines satisfy it. -/
lemma saveCart_posqty (store : List SavedCart) (cart : List CartItem)
    (name : Option String) (cartId now dateStr : String)
    (hs : ∀ c ∈ store, PosQty c.items) (hc : PosQty cart) :
    ∀ c ∈ (saveCart store cart name cartId now dateStr).1, PosQty c.items := by
  intro c hmem
  rcases List.mem_cons.mp hmem with rfl | hmem2
  · exact hc
  · exact hs c hmem2

/-- Every page operation preserves the quantity invariant. -/
lemma inv_step (s t : State) (h : Inv s) (hst : Step s t) : Inv t := by
  obtain ⟨hcart, hsaved, hstore⟩ := h
  cases hst with
  | add product =>
    refine ⟨posqty_addToCart s product hcart, ?_, ?_⟩
    · rw [(addToCart_frame s product).1]
      exact hsaved
    · rw [(addToCart_frame s product).2]
      exact hstore
  | adjust id delta =>
    exact ⟨posqty_updateQuantity s id delta hcart, hsaved, hstore⟩
  | remove id =>
    exact ⟨fun it hit => hcart it (List.mem_of_mem_filter hit), hsaved, hstore⟩
  | newCart =>
    exact ⟨posQty_nil, hsaved, hstore⟩
  | load sc hmem =>
    exact ⟨hsaved sc hmem, hsaved, hstore⟩
  | save now =>
    unfold handleSaveCart
    split
    · exact ⟨hcart, hsaved, hstore⟩
    · cases hcur : s.currentCartId with
      | none => exact ⟨hcart, hsaved, hstore⟩
      | some c =>
        dsimp only
        split
        · exact ⟨hcart, hsaved, hstore⟩
        · split
          · exact ⟨hcart,
              updateCart_posqty s.store c s.cart _ now hstore hcart,
              updateCart_posqty s.store c s.cart _ now hstore hcart⟩
          · exact ⟨hcart, hsaved, hstore⟩
  | confirmSave cartId now dateStr =>
    unfold handleConfirmSaveCart
    split
    · exact ⟨hcart, hsaved, hstore⟩
    · exact ⟨hcart,
        saveCart_posqty s.store s.cart _ cartId now dateStr hstore hcart,
        saveCart_posqty s.store s.cart _ cartId now dateStr hstore hcart⟩
  | delete cartId =>
    unfold handleDeleteCart
    split <;>
      exact ⟨hcart, fun sc hsc => hstore sc (List.mem_of_mem_filter hsc),
        fun sc hsc => hstore sc (List.mem_of_mem_filter hsc)⟩
  | checkout ok =>
    unfold handleConfirmCheckout
    split
    · exact ⟨hcart, hsaved, hstore⟩
    · split
      · cases hcur : s.currentCartId with
        | none => exact ⟨posQty_nil, hsaved, hstore⟩
        | some c =>
          dsimp only
          split
          · exact ⟨posQty_nil, hsaved, hstore⟩
          · exact ⟨posQty_nil,
              fun sc hsc => hstore sc (List.mem_of_mem_filter hsc),
              fun sc hsc => hstore sc (List.mem_of_mem_filter hsc)⟩
      · exact ⟨hcart, hsaved, hstore⟩
  | stock inv =>
    exact ⟨hcart, hsaved, hstore⟩

/-- Every reachable state satisfies the quantity invariant. -/
lemma inv_reachable (s : State) (h : Reachable s) : Inv s := by
  unfold Reachable at h
  induction h with
  | refl =>
    exact ⟨posQty_nil, fun sc hsc => absurd hsc (List.not_mem_nil sc),
      fun sc hsc => absurd hsc (List.not_mem_nil sc)⟩
  | tail hab hbc ih => exact inv_step _ _ ih hbc

/-- Claim C8: in every state reachable by the page operations from the
empty initial state, every line of the live cart has quantity at least
one: addToCart only inserts lines at quantity one or increments an
existing line, and updateQuantity removes any line it would drive to
zero or below instead of keeping it. -/
theorem reachable_cart_lines_positive (s : State) (h : Reachable s) :
    ∀ it ∈ s.cart, 1 ≤ it.quantity :=
  (inv_reachable s h).1

/-- An intermediate state for the C8 witness: inventory loaded. -/
def s1W : State := {initState with inventory := [⟨"A", 5, 100⟩]}

/-- The C8 witness state: product A added once from s1W. -/
def s2W : State := (addToCart s1W productA).1

/-- Witness for claim C8: the line of a concrete reachable cart has
quantity at least one. -/
theorem reachable_cart_lines_positive_witness :
    1 ≤ (CartItem.mk "A" "A" "Apple" 5 1).quantity :=
  reachable_cart_lines_positive s2W
    (Relation.ReflTransGen.tail
      (Relation.ReflTransGen.tail Relation.ReflTransGen.refl
        (Step.stock initState [⟨"A", 5, 100⟩]))
      (Step.add s1W productA))
    ⟨"A", "A", "Apple", 5, 1⟩ (by decide)

/-- Witness for claim C10 at concrete inputs. -/
theorem names_stay_nonempty_witness :
    (saveCart [scW6] [itemW6] none "c3" "t4" "d4").2.name ≠ "" ∧
    (updateCart [scW6] "c1" [itemW6] (some "") "t4").1.map SavedCart.name =
      [scW6].map SavedCart.name :=
  ⟨(names_stay_nonempty [scW6] [itemW6] "c3" "t4" "d4" "c1" (some "")
      (Or.inr rfl) (by decide)).1 none,
   (names_stay_nonempty [scW6] [itemW6] "c3" "t4" "d4" "c1" (some "")
      (Or.inr rfl) (by decide)).2.1⟩

end Warung
